import Mathlib

/-!
Verification of the SarvaSahay eligibility engine
(`services/eligibility_engine.py`).

The engine keeps a list of scheme dictionaries, and for a user-profile
dictionary evaluates every loaded scheme, collects the eligible ones with a
confidence score and a category, ranks them by benefit amount and enforces a
wall-clock budget after the loop.  Python dictionaries with optional keys are
embedded as structures of `Option` fields; Python numbers as `ℚ`; raised
exceptions as `Except EngineError`.
-/

deriving instance DecidableEq for Except

namespace SarvaSahay

/-- A numeric criterion dictionary with optional `"min"` and `"max"` keys. -/
structure RangeCriterion where
  min : Option ℚ
  max : Option ℚ
  deriving Repr, DecidableEq

/-- Criteria keys that may appear in a scheme's `eligibilityCriteria`
dictionary besides the four keys (`landOwnership`, `employmentStatus`,
`annualIncome`, `age`) that `_check_scheme_eligibility` reads.  The engine
code never looks these keys up. -/
inductive ExtraCriterion where
  | gender (allowed : List String)
  | caste (allowed : List String)
  | state (allowed : List String)
  | familySize (req : RangeCriterion)
  deriving Repr, DecidableEq

/-- The `eligibilityCriteria` dictionary of a scheme.  `extra` holds any
further criteria keys present in the dictionary. -/
structure EligibilityCriteria where
  landOwnership : Option RangeCriterion := none
  employmentStatus : Option (List String) := none
  annualIncome : Option RangeCriterion := none
  age : Option RangeCriterion := none
  extra : List ExtraCriterion := []
  deriving Repr, DecidableEq

/-- A scheme record: `schemeId`, `name`, `benefitAmount` and (possibly empty)
`eligibilityCriteria`; `scheme.get("eligibilityCriteria", {})` makes a scheme
without that key behave as one with the empty criteria dictionary. -/
structure Scheme where
  schemeId : String
  name : String
  benefitAmount : ℚ
  eligibilityCriteria : EligibilityCriteria := {}
  deriving Repr, DecidableEq

/-- The `demographics` section of a profile dictionary. -/
structure Demographics where
  age : Option ℚ := none
  gender : Option String := none
  caste : Option String := none
  deriving Repr, DecidableEq

/-- The `economic` section of a profile dictionary. -/
structure Economic where
  annualIncome : Option ℚ := none
  landOwnership : Option ℚ := none
  employmentStatus : Option String := none
  deriving Repr, DecidableEq

/-- The `location` section of a profile dictionary. -/
structure LocationInfo where
  state : Option String := none
  deriving Repr, DecidableEq

/-- The `family` section of a profile dictionary. -/
structure FamilyInfo where
  size : Option ℚ := none
  deriving Repr, DecidableEq

/-- A user-profile dictionary.  `otherKeys` records any further top-level
keys (such as `profileId`); only their presence matters, for the emptiness
test `not user_profile`. -/
structure Profile where
  demographics : Option Demographics := none
  economic : Option Economic := none
  location : Option LocationInfo := none
  family : Option FamilyInfo := none
  otherKeys : List String := []
  deriving Repr, DecidableEq

/-- `not user_profile` in Python: the dictionary has no keys at all. -/
def Profile.isEmpty (p : Profile) : Bool :=
  p.demographics.isNone && p.economic.isNone && p.location.isNone
    && p.family.isNone && p.otherKeys.isEmpty

/-- The error taxonomy of the engine: `ValueError("Schemes must be a list")`,
`ValueError("User profile cannot be empty")`, the `KeyError`-derived
`ValueError("Missing required profile field: ...")` and the
`RuntimeError` for an exceeded time budget (carrying the elapsed time). -/
inductive EngineError where
  | invalidCatalog
  | emptyProfile
  | missingProfileField (field : String)
  | timeBudgetExceeded (elapsed : ℚ)
  deriving Repr, DecidableEq

/-- `profile[secName][fldName]`: a two-level dictionary lookup raising a
`KeyError` (embedded as `missingProfileField`) that names whichever key is
absent — the section key, or the field key inside a present section. -/
def dictGet2 (sec : Option σ) (secName : String) (fld : σ → Option α)
    (fldName : String) : Except EngineError α :=
  match sec with
  | none => .error (.missingProfileField secName)
  | some s =>
    match fld s with
    | none => .error (.missingProfileField fldName)
    | some v => .ok v

/-- `profile["economic"]["landOwnership"]`. -/
def Profile.getLandOwnership (p : Profile) : Except EngineError ℚ :=
  dictGet2 p.economic "economic" Economic.landOwnership "landOwnership"

/-- `profile["economic"]["employmentStatus"]`. -/
def Profile.getEmploymentStatus (p : Profile) : Except EngineError String :=
  dictGet2 p.economic "economic" Economic.employmentStatus "employmentStatus"

/-- `profile["economic"]["annualIncome"]`. -/
def Profile.getAnnualIncome (p : Profile) : Except EngineError ℚ :=
  dictGet2 p.economic "economic" Economic.annualIncome "annualIncome"

/-- `profile["demographics"]["age"]`. -/
def Profile.getAge (p : Profile) : Except EngineError ℚ :=
  dictGet2 p.demographics "demographics" Demographics.age "age"

/-- Python's two-argument `min`.  Equal to `min` on `ℚ` (`pyMin_eq_min`);
spelt out so that it evaluates by kernel reduction. -/
def pyMin (a b : ℚ) : ℚ :=
  if a ≤ b then a else b

/-- Addition on `ℚ` by explicit cross multiplication.  Equal to `+`
(`addQ_eq_add`); spelt out because the library's `Rat.add` is
`@[irreducible]` and would block kernel evaluation on concrete inputs. -/
def addQ (a b : ℚ) : ℚ :=
  mkRat (a.num * b.den + b.num * a.den) (a.den * b.den)

/-- `x <= req.get("max", float('inf'))`: always true for an absent max. -/
def leMaxOpt (x : ℚ) (max : Option ℚ) : Bool :=
  match max with
  | some m => decide (x ≤ m)
  | none => true

/-- `x > req.get("max", float('inf'))`: always false for an absent max. -/
def gtMaxOpt (x : ℚ) (max : Option ℚ) : Bool :=
  match max with
  | some m => decide (m < x)
  | none => false

/-- `land_req.get("min", 0) <= user_land <= land_req.get("max", inf)`. -/
def land_pass (req : RangeCriterion) (v : ℚ) : Bool :=
  decide (req.min.getD 0 ≤ v) && leMaxOpt v req.max

/-- `not (user_income > income_req.get("max", inf))`: only the upper bound
is tested for the income criterion. -/
def income_pass (req : RangeCriterion) (v : ℚ) : Bool :=
  !(gtMaxOpt v req.max)

/-- `age_req.get("min", 0) <= user_age <= age_req.get("max", 150)`. -/
def age_pass (req : RangeCriterion) (v : ℚ) : Bool :=
  decide (req.min.getD 0 ≤ v) && decide (v ≤ req.max.getD 150)

/-- The shape shared by the four criterion blocks of
`_check_scheme_eligibility`: an absent criterion key imposes no constraint;
a present one first looks the profile value up (possibly raising) and then
applies the block's comparison. -/
def criterionBlock (crit : Option β) (getv : Except EngineError α)
    (pass : β → α → Bool) : Except EngineError Bool :=
  match crit with
  | none => .ok true
  | some req =>
    match getv with
    | .error e => .error e
    | .ok v => .ok (pass req v)

/-- The `landOwnership` block of `_check_scheme_eligibility`. -/
def checkLand (profile : Profile) (criteria : EligibilityCriteria) :
    Except EngineError Bool :=
  criterionBlock criteria.landOwnership profile.getLandOwnership land_pass

/-- The `employmentStatus` block of `_check_scheme_eligibility`:
`profile["economic"]["employmentStatus"] not in criteria["employmentStatus"]`. -/
def checkEmployment (profile : Profile) (criteria : EligibilityCriteria) :
    Except EngineError Bool :=
  criterionBlock criteria.employmentStatus profile.getEmploymentStatus
    (fun allowed user_emp => allowed.contains user_emp)

/-- The `annualIncome` block of `_check_scheme_eligibility`. -/
def checkIncome (profile : Profile) (criteria : EligibilityCriteria) :
    Except EngineError Bool :=
  criterionBlock criteria.annualIncome profile.getAnnualIncome income_pass

/-- The `age` block of `_check_scheme_eligibility`. -/
def checkAge (profile : Profile) (criteria : EligibilityCriteria) :
    Except EngineError Bool :=
  criterionBlock criteria.age profile.getAge age_pass

/-- `_check_scheme_eligibility`: the four criterion blocks in source order,
each returning `False` immediately on failure; a `KeyError` from a profile
lookup is re-raised as the missing-field error.  Criteria keys other than the
four tested ones are never read. -/
def check_scheme_eligibility (profile : Profile) (scheme : Scheme) :
    Except EngineError Bool :=
  match checkLand profile scheme.eligibilityCriteria with
  | .error e => .error e
  | .ok false => .ok false
  | .ok true =>
    match checkEmployment profile scheme.eligibilityCriteria with
    | .error e => .error e
    | .ok false => .ok false
    | .ok true =>
      match checkIncome profile scheme.eligibilityCriteria with
      | .error e => .error e
      | .ok false => .ok false
      | .ok true =>
        match checkAge profile scheme.eligibilityCriteria with
        | .error e => .error e
        | .ok false => .ok false
        | .ok true => .ok true

/-- `_calculate_eligibility_score`: base `0.8`, plus `0.1` when an
`employmentStatus` criterion lists the profile's employment status, capped
at `1.0`. -/
def calculate_eligibility_score (profile : Profile) (scheme : Scheme) :
    Except EngineError ℚ :=
  match scheme.eligibilityCriteria.employmentStatus with
  | none => .ok (pyMin (mkRat 8 10) 1)
  | some allowed =>
    match profile.getEmploymentStatus with
    | .error e => .error e
    | .ok user_emp =>
      if allowed.contains user_emp then
        .ok (pyMin (addQ (mkRat 8 10) (mkRat 1 10)) 1)
      else .ok (pyMin (mkRat 8 10) 1)

/-- `_determine_eligibility_category`: thresholds over the recomputed
score. -/
def determine_eligibility_category (profile : Profile) (scheme : Scheme) :
    Except EngineError String :=
  match calculate_eligibility_score profile scheme with
  | .error e => .error e
  | .ok score =>
    if mkRat 9 10 ≤ score then .ok "Definitely Eligible"
    else if mkRat 7 10 ≤ score then .ok "Likely Eligible"
    else .ok "Conditional"

/-- One entry of the result list built by `evaluate_eligibility`. -/
structure SchemeResult where
  schemeId : String
  name : String
  benefitAmount : ℚ
  eligibilityScore : ℚ
  category : String
  deriving Repr, DecidableEq

/-- The `for scheme in self.schemes` loop of `evaluate_eligibility`: keep
the schemes whose check passes, building their result records in catalog
order; the first raised error aborts the whole loop. -/
def evaluate_schemes_loop (profile : Profile) :
    List Scheme → Except EngineError (List SchemeResult)
  | [] => .ok []
  | scheme :: rest =>
    match check_scheme_eligibility profile scheme with
    | .error e => .error e
    | .ok false => evaluate_schemes_loop profile rest
    | .ok true =>
      match calculate_eligibility_score profile scheme with
      | .error e => .error e
      | .ok score =>
        match determine_eligibility_category profile scheme with
        | .error e => .error e
        | .ok category =>
          match evaluate_schemes_loop profile rest with
          | .error e => .error e
          | .ok tail =>
            .ok ({ schemeId := scheme.schemeId, name := scheme.name,
                   benefitAmount := scheme.benefitAmount,
                   eligibilityScore := score, category := category } :: tail)

/-- The engine state: loaded schemes and the two constants set in
`__init__`. -/
structure EligibilityEngine where
  schemes : List Scheme := []
  model_accuracy : ℚ := mkRat 89 100
  max_evaluation_time : ℚ := 5
  deriving Repr, DecidableEq

/-- Insertion step of the stable descending sort modelling
`eligible_schemes.sort(key=lambda x: x["benefitAmount"], reverse=True)`:
the inserted record moves past records of strictly larger benefit only, so
it lands before every record of equal benefit already in the list. -/
def insertRanked (r : SchemeResult) : List SchemeResult → List SchemeResult
  | [] => [r]
  | x :: xs =>
    if r.benefitAmount < x.benefitAmount then x :: insertRanked r xs
    else r :: x :: xs

/-- Stable sort by benefit amount, descending.  Python's `list.sort` with
`reverse=True` is a stable sort under the same total preorder, and a stable
sort is determined uniquely by its preorder, so this insertion sort computes
exactly the list the source builds. -/
def rankResults : List SchemeResult → List SchemeResult
  | [] => []
  | x :: xs => insertRanked x (rankResults xs)

/-- The argument of `load_schemes`: either a Python list of scheme records
or a value of some other shape. -/
inductive SchemesInput where
  | list (schemes : List Scheme)
  | nonList
  deriving Repr, DecidableEq

/-- `load_schemes`: rejects a non-list input (leaving the engine unchanged),
otherwise replaces the loaded schemes wholesale. -/
def load_schemes (engine : EligibilityEngine) (input : SchemesInput) :
    EligibilityEngine × Option EngineError :=
  match input with
  | .nonList => (engine, some .invalidCatalog)
  | .list schemes => ({ engine with schemes := schemes }, none)

/-- `get_scheme_count`. -/
def get_scheme_count (engine : EligibilityEngine) : ℕ :=
  engine.schemes.length

/-- `evaluate_eligibility`: empty-profile guard, the evaluation loop, the
descending stable sort by benefit amount, then the post-hoc wall-clock
budget check.  `elapsed` is the measured wall-clock duration of the loop
and sort, an input of the embedding. -/
def evaluate_eligibility (engine : EligibilityEngine) (user_profile : Profile)
    (elapsed : ℚ) : Except EngineError (List SchemeResult) :=
  if user_profile.isEmpty then .error .emptyProfile
  else
    match evaluate_schemes_loop user_profile engine.schemes with
    | .error e => .error e
    | .ok eligible_schemes =>
      let ranked := rankResults eligible_schemes
      if engine.max_evaluation_time < elapsed then
        .error (.timeBudgetExceeded elapsed)
      else .ok ranked

/-! ### Profile-value projections and spec-side readings -/

/-- The optional value at `profile["economic"]["landOwnership"]`. -/
def landValue? (p : Profile) : Option ℚ :=
  p.economic.bind Economic.landOwnership

/-- The optional value at `profile["economic"]["employmentStatus"]`. -/
def employmentValue? (p : Profile) : Option String :=
  p.economic.bind Economic.employmentStatus

/-- The optional value at `profile["economic"]["annualIncome"]`. -/
def incomeValue? (p : Profile) : Option ℚ :=
  p.economic.bind Economic.annualIncome

/-- The optional value at `profile["demographics"]["age"]`. -/
def ageValue? (p : Profile) : Option ℚ :=
  p.demographics.bind Demographics.age

/-- Spec reading of a numeric-range criterion: the value lies in the closed
interval `[min, max]`, an absent bound imposing no constraint
(`-infinity` / `+infinity`). -/
def specRangeSatisfied (req : RangeCriterion) (v : ℚ) : Bool :=
  (match req.min with | some m => decide (m ≤ v) | none => true)
    && (match req.max with | some m => decide (v ≤ m) | none => true)

/-- Spec reading of the age criterion: as `specRangeSatisfied`, but an
absent max defaults to `150`. -/
def specAgeRangeSatisfied (req : RangeCriterion) (v : ℚ) : Bool :=
  (match req.min with | some m => decide (m ≤ v) | none => true)
    && decide (v ≤ req.max.getD 150)

/-- Spec reading of the criteria shapes beyond the four keys the engine
implements: set membership for gender / caste / state, a numeric range for
family size.  A missing referenced profile field counts as unsatisfied
here (the concrete inputs used against this definition have the field
present). -/
def specExtraSatisfied (p : Profile) : ExtraCriterion → Bool
  | .gender allowed =>
    match p.demographics.bind Demographics.gender with
    | some g => allowed.contains g
    | none => false
  | .caste allowed =>
    match p.demographics.bind Demographics.caste with
    | some c => allowed.contains c
    | none => false
  | .state allowed =>
    match p.location.bind LocationInfo.state with
    | some st => allowed.contains st
    | none => false
  | .familySize req =>
    match p.family.bind FamilyInfo.size with
    | some n => specRangeSatisfied req n
    | none => false

/-- Spec reading of the whole eligibility test: the profile satisfies every
criterion present in the scheme's criteria dictionary, whatever its shape —
numeric ranges, set memberships, and the criteria the engine leaves
unread alike. -/
def specCriteriaSatisfied (p : Profile) (c : EligibilityCriteria) : Bool :=
  (match c.landOwnership, landValue? p with
   | some req, some v => specRangeSatisfied req v
   | some _, none => false
   | none, _ => true)
  && (match c.employmentStatus, employmentValue? p with
   | some allowed, some es => allowed.contains es
   | some _, none => false
   | none, _ => true)
  && (match c.annualIncome, incomeValue? p with
   | some req, some v => specRangeSatisfied req v
   | some _, none => false
   | none, _ => true)
  && (match c.age, ageValue? p with
   | some req, some v => specAgeRangeSatisfied req v
   | some _, none => false
   | none, _ => true)
  && c.extra.all (specExtraSatisfied p)

/-- The eligibility test as the code performs it: only the four implemented
criterion keys constrain the profile, each with the code's own range
semantics (`land_pass`, list membership, `income_pass`, `age_pass`), and a
present criterion requires its profile field to be present. -/
def implementedCriteriaSatisfied (p : Profile) (c : EligibilityCriteria) :
    Prop :=
  (∀ req ∈ c.landOwnership,
      ∃ v, landValue? p = some v ∧ land_pass req v = true)
  ∧ (∀ allowed ∈ c.employmentStatus,
      ∃ es, employmentValue? p = some es ∧ allowed.contains es = true)
  ∧ (∀ req ∈ c.annualIncome,
      ∃ v, incomeValue? p = some v ∧ income_pass req v = true)
  ∧ (∀ req ∈ c.age,
      ∃ v, ageValue? p = some v ∧ age_pass req v = true)

/-- The only criterion the scoring code rewards as an exact match beyond
the minimum bar: an `employmentStatus` criterion explicitly listing the
profile's employment status. -/
def empExactMatch (p : Profile) (s : Scheme) : Bool :=
  match s.eligibilityCriteria.employmentStatus, employmentValue? p with
  | some allowed, some es => allowed.contains es
  | _, _ => false

/-- Number of bonus increments the scoring code grants: one per criterion
matched exactly and additionally, and `empExactMatch` is the only such
criterion in the code. -/
def exactMatchBonusCount (p : Profile) (s : Scheme) : ℕ :=
  if empExactMatch p s then 1 else 0

/-- The profile field named `f` is genuinely absent from `p`, for the six
keys the engine may look up. -/
def profileFieldMissing (p : Profile) (f : String) : Prop :=
  (f = "economic" ∧ p.economic = none)
  ∨ (f = "demographics" ∧ p.demographics = none)
  ∨ (f = "landOwnership" ∧ ∃ ec, p.economic = some ec ∧ ec.landOwnership = none)
  ∨ (f = "employmentStatus" ∧ ∃ ec, p.economic = some ec ∧ ec.employmentStatus = none)
  ∨ (f = "annualIncome" ∧ ∃ ec, p.economic = some ec ∧ ec.annualIncome = none)
  ∨ (f = "age" ∧ ∃ d, p.demographics = some d ∧ d.age = none)

/-! ### Concrete profiles, schemes and results used in closed statements -/

/-- The repository's sample profile (`conftest.py`), a 35-year-old farmer
with income `120000` and `1.5` units of land. -/
def sampleProfile : Profile where
  demographics := some { age := some 35, gender := some "female", caste := some "SC" }
  economic := some { annualIncome := some 120000, landOwnership := some (mkRat 3 2),
                     employmentStatus := some "farmer" }
  location := some { state := some "Maharashtra" }
  family := some { size := some 4 }
  otherKeys := ["profileId"]

/-- The repository's PM-KISAN fixture: land in `[0.1, 2.0]`, employment
status `farmer`, income at most `200000`, benefit `6000`. -/
def pmKisan : Scheme where
  schemeId := "PM-KISAN"
  name := "Pradhan Mantri Kisan Samman Nidhi"
  benefitAmount := 6000
  eligibilityCriteria :=
    { landOwnership := some ⟨some (mkRat 1 10), some 2⟩,
      employmentStatus := some ["farmer"],
      annualIncome := some ⟨none, some 200000⟩ }

/-- The repository's MGNREGA fixture: age in `[18, 65]`, benefit `25000`. -/
def mgnrega : Scheme where
  schemeId := "MGNREGA"
  name := "Mahatma Gandhi National Rural Employment Guarantee Act"
  benefitAmount := 25000
  eligibilityCriteria := { age := some ⟨some 18, some 65⟩ }

/-- The result record the engine builds for `sampleProfile` against
`pmKisan`. -/
def pmKisanResult : SchemeResult where
  schemeId := "PM-KISAN"
  name := "Pradhan Mantri Kisan Samman Nidhi"
  benefitAmount := 6000
  eligibilityScore := mkRat 9 10
  category := "Definitely Eligible"

/-- The result record the engine builds for `sampleProfile` against
`mgnrega`. -/
def mgnregaResult : SchemeResult where
  schemeId := "MGNREGA"
  name := "Mahatma Gandhi National Rural Employment Guarantee Act"
  benefitAmount := 25000
  eligibilityScore := mkRat 4 5
  category := "Likely Eligible"

/-- A scheme whose only criterion is one the engine never reads: gender
restricted to `female`. -/
def genderScheme : Scheme where
  schemeId := "WOMEN-ONLY"
  name := "Women-only benefit scheme"
  benefitAmount := 5000
  eligibilityCriteria := { extra := [.gender ["female"]] }

/-- A profile whose gender is `male` but which satisfies every criterion
shape the engine implements. -/
def maleProfile : Profile where
  demographics := some { age := some 40, gender := some "male" }
  economic := some { annualIncome := some 50000, landOwnership := some 1,
                     employmentStatus := some "farmer" }
  otherKeys := ["profileId"]

/-- A scheme stating a minimum income of `100000` and no maximum. -/
def minIncomeScheme : Scheme where
  schemeId := "MIN-INCOME"
  name := "Minimum income contribution scheme"
  benefitAmount := 1000
  eligibilityCriteria := { annualIncome := some ⟨some 100000, none⟩ }

/-- A profile with income `50000` — below `minIncomeScheme`'s stated
minimum. -/
def lowIncomeProfile : Profile where
  demographics := some { age := some 35 }
  economic := some { annualIncome := some 50000, landOwnership := some 1,
                     employmentStatus := some "farmer" }
  otherKeys := ["profileId"]

/-- A scheme that requires at least 5 units of land and lists allowed
employment statuses: the land criterion fails first, so the employment
criterion is never evaluated. -/
def shortCircuitScheme : Scheme where
  schemeId := "LAND-EMP"
  name := "Large landholder employment scheme"
  benefitAmount := 2000
  eligibilityCriteria :=
    { landOwnership := some ⟨some 5, none⟩,
      employmentStatus := some ["farmer"] }

/-- A non-empty profile whose economic section omits `employmentStatus`. -/
def noEmpProfile : Profile where
  demographics := some { age := some 30 }
  economic := some { annualIncome := some 100000, landOwnership := some 1 }
  otherKeys := ["profileId"]

/-- A non-empty profile with no economic section at all. -/
def noEconProfile : Profile where
  demographics := some { age := some 30 }
  otherKeys := ["profileId"]

/-! ### Bridge lemmas for the computable arithmetic -/

theorem pyMin_eq_min (a b : ℚ) : pyMin a b = min a b :=
  (min_def a b).symm

theorem addQ_eq_add (a b : ℚ) : addQ a b = a + b := by
  have ha : (a.den : ℚ) ≠ 0 := Nat.cast_ne_zero.mpr a.den_nz
  have hb : (b.den : ℚ) ≠ 0 := Nat.cast_ne_zero.mpr b.den_nz
  rw [addQ, Rat.mkRat_eq_div]
  push_cast
  conv_rhs => rw [← Rat.num_div_den a, ← Rat.num_div_den b,
    div_add_div _ _ ha hb]
  ring_nf

theorem score_bonus_val : pyMin (addQ (mkRat 8 10) (mkRat 1 10)) 1 = 9/10 := by
  rw [addQ_eq_add, pyMin_eq_min, Rat.mkRat_eq_div, Rat.mkRat_eq_div]
  rw [min_eq_left (by norm_num)]
  norm_num

theorem score_base_val : pyMin (mkRat 8 10) 1 = 4/5 := by
  rw [pyMin_eq_min, Rat.mkRat_eq_div, min_eq_left (by norm_num)]
  norm_num

/-! ### Lookup and criterion-block characterizations -/

theorem dictGet2_ok_iff {σ α : Type} {sec : Option σ} {sn : String}
    {fld : σ → Option α} {fn : String} {v : α} :
    dictGet2 sec sn fld fn = .ok v ↔ sec.bind fld = some v := by
  cases sec with
  | none => simp [dictGet2]
  | some s => cases h : fld s <;> simp [dictGet2, h]

theorem dictGet2_error_cases {σ α : Type} {sec : Option σ} {sn : String}
    {fld : σ → Option α} {fn : String} {er : EngineError}
    (h : dictGet2 sec sn fld fn = .error er) :
    (er = .missingProfileField sn ∧ sec = none) ∨
      (er = .missingProfileField fn ∧ ∃ s, sec = some s ∧ fld s = none) := by
  cases sec with
  | none =>
    left
    simp only [dictGet2, Except.error.injEq] at h
    exact ⟨h.symm, rfl⟩
  | some s =>
    cases hf : fld s with
    | none =>
      right
      simp only [dictGet2, hf, Except.error.injEq] at h
      exact ⟨h.symm, s, rfl, hf⟩
    | some v => simp [dictGet2, hf] at h

theorem criterionBlock_ok_true_iff {β α : Type} {crit : Option β}
    {getv : Except EngineError α} {value : Option α} {pass : β → α → Bool}
    (hlink : ∀ v, getv = .ok v ↔ value = some v) :
    criterionBlock crit getv pass = .ok true ↔
      ∀ req ∈ crit, ∃ v, value = some v ∧ pass req v = true := by
  cases crit with
  | none => simp [criterionBlock]
  | some req =>
    cases hg : getv with
    | error e =>
      have hv : value = none := by
        cases hvv : value with
        | none => rfl
        | some v =>
          have h2 := (hlink v).mpr hvv
          rw [hg] at h2
          cases h2
      simp [criterionBlock, hg, hv]
    | ok v =>
      have hv := (hlink v).mp hg
      simp [criterionBlock, hg, hv]

theorem criterionBlock_error {β α : Type} {crit : Option β}
    {getv : Except EngineError α} {pass : β → α → Bool} {er : EngineError}
    (h : criterionBlock crit getv pass = .error er) : getv = .error er := by
  cases crit with
  | none => simp [criterionBlock] at h
  | some req =>
    cases hg : getv with
    | error e =>
      simp only [criterionBlock, hg, Except.error.injEq] at h
      rw [h]
    | ok v => simp [criterionBlock, hg] at h

theorem getLandOwnership_ok_iff {p : Profile} {v : ℚ} :
    p.getLandOwnership = .ok v ↔ landValue? p = some v :=
  dictGet2_ok_iff

theorem getEmploymentStatus_ok_iff {p : Profile} {v : String} :
    p.getEmploymentStatus = .ok v ↔ employmentValue? p = some v :=
  dictGet2_ok_iff

theorem getAnnualIncome_ok_iff {p : Profile} {v : ℚ} :
    p.getAnnualIncome = .ok v ↔ incomeValue? p = some v :=
  dictGet2_ok_iff

theorem getAge_ok_iff {p : Profile} {v : ℚ} :
    p.getAge = .ok v ↔ ageValue? p = some v :=
  dictGet2_ok_iff

theorem getLandOwnership_error_wf {p : Profile} {er : EngineError}
    (h : p.getLandOwnership = .error er) :
    ∃ f, er = .missingProfileField f ∧ profileFieldMissing p f := by
  rcases dictGet2_error_cases h with ⟨he, hsec⟩ | ⟨he, s, hs, hf⟩
  · exact ⟨"economic", he, Or.inl ⟨rfl, hsec⟩⟩
  · exact ⟨"landOwnership", he, Or.inr (Or.inr (Or.inl ⟨rfl, s, hs, hf⟩))⟩

theorem getEmploymentStatus_error_wf {p : Profile} {er : EngineError}
    (h : p.getEmploymentStatus = .error er) :
    ∃ f, er = .missingProfileField f ∧ profileFieldMissing p f := by
  rcases dictGet2_error_cases h with ⟨he, hsec⟩ | ⟨he, s, hs, hf⟩
  · exact ⟨"economic", he, Or.inl ⟨rfl, hsec⟩⟩
  · exact ⟨"employmentStatus", he,
      Or.inr (Or.inr (Or.inr (Or.inl ⟨rfl, s, hs, hf⟩)))⟩

theorem getAnnualIncome_error_wf {p : Profile} {er : EngineError}
    (h : p.getAnnualIncome = .error er) :
    ∃ f, er = .missingProfileField f ∧ profileFieldMissing p f := by
  rcases dictGet2_error_cases h with ⟨he, hsec⟩ | ⟨he, s, hs, hf⟩
  · exact ⟨"economic", he, Or.inl ⟨rfl, hsec⟩⟩
  · exact ⟨"annualIncome", he,
      Or.inr (Or.inr (Or.inr (Or.inr (Or.inl ⟨rfl, s, hs, hf⟩))))⟩

theorem getAge_error_wf {p : Profile} {er : EngineError}
    (h : p.getAge = .error er) :
    ∃ f, er = .missingProfileField f ∧ profileFieldMissing p f := by
  rcases dictGet2_error_cases h with ⟨he, hsec⟩ | ⟨he, s, hs, hf⟩
  · exact ⟨"demographics", he, Or.inr (Or.inl ⟨rfl, hsec⟩)⟩
  · exact ⟨"age", he,
      Or.inr (Or.inr (Or.inr (Or.inr (Or.inr ⟨rfl, s, hs, hf⟩))))⟩

/-! ### Characterizing `_check_scheme_eligibility` -/

theorem check_ok_true_iff {p : Profile} {s : Scheme} :
    check_scheme_eligibility p s = .ok true ↔
      (checkLand p s.eligibilityCriteria = .ok true ∧
       checkEmployment p s.eligibilityCriteria = .ok true ∧
       checkIncome p s.eligibilityCriteria = .ok true ∧
       checkAge p s.eligibilityCriteria = .ok true) := by
  unfold check_scheme_eligibility
  cases h1 : checkLand p s.eligibilityCriteria with
  | error e => simp [h1]
  | ok b1 =>
    cases b1 with
    | false => simp [h1]
    | true =>
      cases h2 : checkEmployment p s.eligibilityCriteria with
      | error e => simp [h1, h2]
      | ok b2 =>
        cases b2 with
        | false => simp [h1, h2]
        | true =>
          cases h3 : checkIncome p s.eligibilityCriteria with
          | error e => simp [h1, h2, h3]
          | ok b3 =>
            cases b3 with
            | false => simp [h1, h2, h3]
            | true =>
              cases h4 : checkAge p s.eligibilityCriteria with
              | error e => simp [h1, h2, h3, h4]
              | ok b4 => cases b4 <;> simp [h1, h2, h3, h4]

theorem check_error_wf {p : Profile} {s : Scheme} {er : EngineError}
    (h : check_scheme_eligibility p s = .error er) :
    ∃ f, er = .missingProfileField f ∧ profileFieldMissing p f := by
  unfold check_scheme_eligibility at h
  cases h1 : checkLand p s.eligibilityCriteria with
  | error e =>
    rw [h1] at h
    injection h with h'
    exact h' ▸ getLandOwnership_error_wf (criterionBlock_error h1)
  | ok b1 =>
    rw [h1] at h
    cases b1 with
    | false => cases h
    | true =>
      cases h2 : checkEmployment p s.eligibilityCriteria with
      | error e =>
        rw [h2] at h
        injection h with h'
        exact h' ▸ getEmploymentStatus_error_wf (criterionBlock_error h2)
      | ok b2 =>
        rw [h2] at h
        cases b2 with
        | false => cases h
        | true =>
          cases h3 : checkIncome p s.eligibilityCriteria with
          | error e =>
            rw [h3] at h
            injection h with h'
            exact h' ▸ getAnnualIncome_error_wf (criterionBlock_error h3)
          | ok b3 =>
            rw [h3] at h
            cases b3 with
            | false => cases h
            | true =>
              cases h4 : checkAge p s.eligibilityCriteria with
              | error e =>
                rw [h4] at h
                injection h with h'
                exact h' ▸ getAge_error_wf (criterionBlock_error h4)
              | ok b4 =>
                rw [h4] at h
                cases b4 <;> cases h

/-! ### Characterizing score and category -/

theorem score_spec {p : Profile} {s : Scheme} {q : ℚ}
    (h : calculate_eligibility_score p s = .ok q) :
    (empExactMatch p s = true ∧ q = 9/10 ∧
      determine_eligibility_category p s = .ok "Definitely Eligible") ∨
    (empExactMatch p s = false ∧ q = 4/5 ∧
      determine_eligibility_category p s = .ok "Likely Eligible") := by
  have hdet : determine_eligibility_category p s =
      (if mkRat 9 10 ≤ q then .ok "Definitely Eligible"
       else if mkRat 7 10 ≤ q then .ok "Likely Eligible"
       else .ok "Conditional") := by
    unfold determine_eligibility_category
    rw [h]
  unfold calculate_eligibility_score at h
  cases hc : s.eligibilityCriteria.employmentStatus with
  | none =>
    rw [hc] at h
    injection h with h'
    have hq : q = 4/5 := by rw [← h', score_base_val]
    right
    refine ⟨by simp [empExactMatch, hc], hq, ?_⟩
    rw [hdet, hq, if_neg (by rw [Rat.mkRat_eq_div]; norm_num),
      if_pos (by rw [Rat.mkRat_eq_div]; norm_num)]
  | some allowed =>
    rw [hc] at h
    cases hg : p.getEmploymentStatus with
    | error e => rw [hg] at h; cases h
    | ok es =>
      rw [hg] at h
      have hval : employmentValue? p = some es := getEmploymentStatus_ok_iff.mp hg
      cases hm : allowed.contains es with
      | true =>
        simp only [hm, if_true] at h
        injection h with h'
        have hq : q = 9/10 := by rw [← h', score_bonus_val]
        left
        refine ⟨by unfold empExactMatch; rw [hc, hval]; exact hm, hq, ?_⟩
        rw [hdet, hq, if_pos (by rw [Rat.mkRat_eq_div]; norm_num)]
      | false =>
        simp only [hm, Bool.false_eq_true, if_false] at h
        injection h with h'
        have hq : q = 4/5 := by rw [← h', score_base_val]
        right
        refine ⟨by unfold empExactMatch; rw [hc, hval]; exact hm, hq, ?_⟩
        rw [hdet, hq, if_neg (by rw [Rat.mkRat_eq_div]; norm_num),
          if_pos (by rw [Rat.mkRat_eq_div]; norm_num)]

theorem score_error_wf {p : Profile} {s : Scheme} {er : EngineError}
    (h : calculate_eligibility_score p s = .error er) :
    ∃ f, er = .missingProfileField f ∧ profileFieldMissing p f := by
  unfold calculate_eligibility_score at h
  cases hc : s.eligibilityCriteria.employmentStatus with
  | none => simp [hc] at h
  | some allowed =>
    simp only [hc] at h
    cases hg : p.getEmploymentStatus with
    | error e =>
      simp only [hg] at h
      injection h with h'
      exact h' ▸ getEmploymentStatus_error_wf hg
    | ok es =>
      simp only [hg] at h
      by_cases hmem : es ∈ allowed <;> simp [hmem] at h

theorem category_error_wf {p : Profile} {s : Scheme} {er : EngineError}
    (h : determine_eligibility_category p s = .error er) :
    ∃ f, er = .missingProfileField f ∧ profileFieldMissing p f := by
  unfold determine_eligibility_category at h
  cases hc : calculate_eligibility_score p s with
  | error e =>
    simp only [hc] at h
    injection h with h'
    exact h' ▸ score_error_wf hc
  | ok q =>
    simp only [hc] at h
    split at h
    · cases h
    · split at h <;> cases h

/-! ### The evaluation loop -/

theorem loop_mem {p : Profile} {l : List Scheme} {res : List SchemeResult}
    (h : evaluate_schemes_loop p l = .ok res) :
    ∀ r ∈ res, ∃ s ∈ l, check_scheme_eligibility p s = .ok true ∧
      calculate_eligibility_score p s = .ok r.eligibilityScore ∧
      determine_eligibility_category p s = .ok r.category ∧
      r.schemeId = s.schemeId ∧ r.name = s.name ∧
      r.benefitAmount = s.benefitAmount := by
  induction l generalizing res with
  | nil =>
    rw [evaluate_schemes_loop] at h
    injection h with h'
    subst h'
    intro r hr
    cases hr
  | cons scheme rest ih =>
    rw [evaluate_schemes_loop] at h
    cases h1 : check_scheme_eligibility p scheme with
    | error e => rw [h1] at h; cases h
    | ok b =>
      rw [h1] at h
      cases b with
      | false =>
        intro r hr
        obtain ⟨s, hs, hrest⟩ := ih h r hr
        exact ⟨s, List.mem_cons_of_mem _ hs, hrest⟩
      | true =>
        cases h2 : calculate_eligibility_score p scheme with
        | error e => rw [h2] at h; cases h
        | ok score =>
          rw [h2] at h
          cases h3 : determine_eligibility_category p scheme with
          | error e => rw [h3] at h; cases h
          | ok category =>
            rw [h3] at h
            cases h4 : evaluate_schemes_loop p rest with
            | error e => rw [h4] at h; cases h
            | ok tail =>
              rw [h4] at h
              injection h with h'
              subst h'
              intro r hr
              rcases List.mem_cons.mp hr with rfl | hr'
              · exact ⟨scheme, List.mem_cons_self _ _, h1, h2, h3, rfl, rfl, rfl⟩
              · obtain ⟨s, hs, hrest⟩ := ih h4 r hr'
                exact ⟨s, List.mem_cons_of_mem _ hs, hrest⟩

theorem loop_ids_sublist {p : Profile} {l : List Scheme}
    {res : List SchemeResult} (h : evaluate_schemes_loop p l = .ok res) :
    List.Sublist (res.map SchemeResult.schemeId) (l.map Scheme.schemeId) := by
  induction l generalizing res with
  | nil =>
    rw [evaluate_schemes_loop] at h
    injection h with h'
    subst h'
    simp
  | cons scheme rest ih =>
    rw [evaluate_schemes_loop] at h
    cases h1 : check_scheme_eligibility p scheme with
    | error e => rw [h1] at h; cases h
    | ok b =>
      rw [h1] at h
      cases b with
      | false => exact (ih h).trans (List.sublist_cons_self _ _)
      | true =>
        cases h2 : calculate_eligibility_score p scheme with
        | error e => rw [h2] at h; cases h
        | ok score =>
          rw [h2] at h
          cases h3 : determine_eligibility_category p scheme with
          | error e => rw [h3] at h; cases h
          | ok category =>
            rw [h3] at h
            cases h4 : evaluate_schemes_loop p rest with
            | error e => rw [h4] at h; cases h
            | ok tail =>
              rw [h4] at h
              injection h with h'
              subst h'
              exact List.Sublist.cons₂ _ (ih h4)

theorem loop_error_wf {p : Profile} {l : List Scheme} {er : EngineError}
    (h : evaluate_schemes_loop p l = .error er) :
    ∃ f, er = .missingProfileField f ∧ profileFieldMissing p f := by
  induction l with
  | nil => rw [evaluate_schemes_loop] at h; cases h
  | cons scheme rest ih =>
    rw [evaluate_schemes_loop] at h
    cases h1 : check_scheme_eligibility p scheme with
    | error e =>
      rw [h1] at h
      injection h with h'
      exact h' ▸ check_error_wf h1
    | ok b =>
      rw [h1] at h
      cases b with
      | false => exact ih h
      | true =>
        cases h2 : calculate_eligibility_score p scheme with
        | error e =>
          rw [h2] at h
          injection h with h'
          exact h' ▸ score_error_wf h2
        | ok score =>
          rw [h2] at h
          cases h3 : determine_eligibility_category p scheme with
          | error e =>
            rw [h3] at h
            injection h with h'
            exact h' ▸ category_error_wf h3
          | ok category =>
            rw [h3] at h
            cases h4 : evaluate_schemes_loop p rest with
            | error e =>
              rw [h4] at h
              injection h with h'
              exact ih (h' ▸ h4)
            | ok tail => rw [h4] at h; cases h

theorem loop_ok_check_ok {p : Profile} {l : List Scheme}
    {res : List SchemeResult} (h : evaluate_schemes_loop p l = .ok res) :
    ∀ s ∈ l, ∃ b, check_scheme_eligibility p s = .ok b := by
  induction l generalizing res with
  | nil => intro s hs; cases hs
  | cons scheme rest ih =>
    rw [evaluate_schemes_loop] at h
    cases h1 : check_scheme_eligibility p scheme with
    | error e => rw [h1] at h; cases h
    | ok b =>
      rw [h1] at h
      cases b with
      | false =>
        intro s hs
        rcases List.mem_cons.mp hs with rfl | hs'
        · exact ⟨false, h1⟩
        · exact ih h s hs'
      | true =>
        cases h2 : calculate_eligibility_score p scheme with
        | error e => rw [h2] at h; cases h
        | ok score =>
          rw [h2] at h
          cases h3 : determine_eligibility_category p scheme with
          | error e => rw [h3] at h; cases h
          | ok category =>
            rw [h3] at h
            cases h4 : evaluate_schemes_loop p rest with
            | error e => rw [h4] at h; cases h
            | ok tail =>
              intro s hs
              rcases List.mem_cons.mp hs with rfl | hs'
              · exact ⟨true, h1⟩
              · exact ih h4 s hs'

theorem loop_error_exists {p : Profile} {l : List Scheme} {s : Scheme}
    {er : EngineError} (hs : s ∈ l)
    (h : check_scheme_eligibility p s = .error er) :
    ∃ er2, evaluate_schemes_loop p l = .error er2 := by
  cases hres : evaluate_schemes_loop p l with
  | error e2 => exact ⟨e2, rfl⟩
  | ok res =>
    obtain ⟨b, hb⟩ := loop_ok_check_ok hres s hs
    rw [h] at hb
    cases hb

theorem evaluate_ok_elim {e : EligibilityEngine} {p : Profile} {t : ℚ}
    {res : List SchemeResult} (h : evaluate_eligibility e p t = .ok res) :
    p.isEmpty = false ∧ ¬ e.max_evaluation_time < t ∧
      ∃ pre, evaluate_schemes_loop p e.schemes = .ok pre ∧
        res = rankResults pre := by
  unfold evaluate_eligibility at h
  cases hemp : p.isEmpty with
  | true => rw [hemp] at h; simp at h
  | false =>
    rw [hemp] at h
    simp only [Bool.false_eq_true, if_false] at h
    cases hl : evaluate_schemes_loop p e.schemes with
    | error e2 => rw [hl] at h; cases h
    | ok pre =>
      simp only [hl] at h
      by_cases ht : e.max_evaluation_time < t
      · rw [if_pos ht] at h; cases h
      · rw [if_neg ht] at h
        injection h with h'
        exact ⟨rfl, ht, pre, rfl, h'.symm⟩

/-! ### The ranking sort -/

theorem insertRanked_perm (r : SchemeResult) (l : List SchemeResult) :
    List.Perm (insertRanked r l) (r :: l) := by
  induction l with
  | nil => exact List.Perm.refl _
  | cons x xs ih =>
    rw [insertRanked]
    by_cases hc : r.benefitAmount < x.benefitAmount
    · rw [if_pos hc]
      exact (ih.cons x).trans (List.Perm.swap r x xs)
    · rw [if_neg hc]

theorem rankResults_perm (l : List SchemeResult) :
    List.Perm (rankResults l) l := by
  induction l with
  | nil => exact List.Perm.refl _
  | cons x xs ih =>
    rw [rankResults]
    exact (insertRanked_perm x (rankResults xs)).trans (ih.cons x)

theorem insertRanked_sorted {r : SchemeResult} {l : List SchemeResult}
    (hl : l.Pairwise (fun a b => b.benefitAmount ≤ a.benefitAmount)) :
    (insertRanked r l).Pairwise
      (fun a b => b.benefitAmount ≤ a.benefitAmount) := by
  induction l with
  | nil => simp [insertRanked]
  | cons x xs ih =>
    rw [insertRanked]
    rcases List.pairwise_cons.mp hl with ⟨hx, hxs⟩
    by_cases hc : r.benefitAmount < x.benefitAmount
    · rw [if_pos hc]
      refine List.pairwise_cons.mpr ⟨?_, ih hxs⟩
      intro b hb
      rcases List.mem_cons.mp ((insertRanked_perm r xs).mem_iff.mp hb)
        with rfl | hb'
      · exact le_of_lt hc
      · exact hx b hb'
    · rw [if_neg hc]
      refine List.pairwise_cons.mpr ⟨?_, hl⟩
      intro b hb
      rcases List.mem_cons.mp hb with rfl | hb'
      · exact not_lt.mp hc
      · exact le_trans (hx b hb') (not_lt.mp hc)

theorem rankResults_sorted (l : List SchemeResult) :
    (rankResults l).Pairwise
      (fun a b => b.benefitAmount ≤ a.benefitAmount) := by
  induction l with
  | nil => simp [rankResults]
  | cons x xs ih => exact insertRanked_sorted ih

theorem insertRanked_filter (r : SchemeResult) (l : List SchemeResult)
    (q : ℚ) :
    (insertRanked r l).filter (fun a => decide (a.benefitAmount = q)) =
      (r :: l).filter (fun a => decide (a.benefitAmount = q)) := by
  induction l with
  | nil => rfl
  | cons x xs ih =>
    rw [insertRanked]
    by_cases hc : r.benefitAmount < x.benefitAmount
    · rw [if_pos hc]
      by_cases hr : r.benefitAmount = q
      · by_cases hx : x.benefitAmount = q
        · rw [hr, ← hx] at hc
          exact absurd hc (lt_irrefl _)
        · simp [List.filter_cons, hr, hx, ih]
      · by_cases hx : x.benefitAmount = q
        · simp [List.filter_cons, hr, hx, ih]
        · simp [List.filter_cons, hr, hx, ih]
    · rw [if_neg hc]

theorem rankResults_filter (l : List SchemeResult) (q : ℚ) :
    (rankResults l).filter (fun a => decide (a.benefitAmount = q)) =
      l.filter (fun a => decide (a.benefitAmount = q)) := by
  induction l with
  | nil => rfl
  | cons x xs ih =>
    rw [rankResults, insertRanked_filter]
    simp only [List.filter_cons]
    rw [ih]

/-! ### Claim theorems -/

/-- C1 (counterexample): the eligibility test is not an if-and-only-if over
every criterion present in the scheme.  A scheme whose only criterion is a
gender restriction to `female` passes for a profile whose gender is `male`:
the spec-side reading of the criteria is unsatisfied, yet the code's test
returns true, because the engine never reads criteria beyond its four
implemented keys. -/
theorem unread_criterion_breaks_spec_iff :
    check_scheme_eligibility maleProfile genderScheme = .ok true ∧
      specCriteriaSatisfied maleProfile genderScheme.eligibilityCriteria =
        false := by
  decide

/-- C1 (amended): the eligibility test passes a scheme if and only if the
profile satisfies every criterion among the four kinds the engine
implements — `landOwnership`, `employmentStatus`, `annualIncome`, `age` —
with the code's per-criterion semantics; criteria of any other name impose
no constraint. -/
theorem check_passes_iff_implemented_criteria (p : Profile) (s : Scheme) :
    check_scheme_eligibility p s = .ok true ↔
      implementedCriteriaSatisfied p s.eligibilityCriteria := by
  rw [check_ok_true_iff]
  unfold implementedCriteriaSatisfied
  exact and_congr (criterionBlock_ok_true_iff fun v => getLandOwnership_ok_iff)
    (and_congr (criterionBlock_ok_true_iff fun v => getEmploymentStatus_ok_iff)
      (and_congr (criterionBlock_ok_true_iff fun v => getAnnualIncome_ok_iff)
        (criterionBlock_ok_true_iff fun v => getAge_ok_iff)))

/-- C2 (counterexample): an income criterion stating a minimum of `100000`
does not reject a profile with income `50000`: the spec-side closed-interval
reading is unsatisfied, yet the code's test passes the scheme, because the
income block only ever compares against the `max` key. -/
theorem income_min_bound_ignored :
    minIncomeScheme.eligibilityCriteria.annualIncome =
        some ⟨some 100000, none⟩ ∧
      incomeValue? lowIncomeProfile = some 50000 ∧
      specRangeSatisfied ⟨some 100000, none⟩ 50000 = false ∧
      check_scheme_eligibility lowIncomeProfile minIncomeScheme = .ok true := by
  decide

/-- C2 (amended): the numeric criterion semantics as implemented — the
income criterion checks only the inclusive upper bound (its `min` key is
ignored); land and age check `[min, max]` with an absent min defaulting to
`0` rather than `-infinity`, an absent land max unbounded, and an absent age
max defaulting to `150`; boundary inclusivity holds: income exactly at the
max passes, one unit above fails. -/
theorem numeric_range_semantics (mn mx : Option ℚ) (v : ℚ) :
    (income_pass ⟨mn, mx⟩ v = true ↔ ∀ m ∈ mx, v ≤ m) ∧
      (land_pass ⟨mn, mx⟩ v = true ↔ mn.getD 0 ≤ v ∧ ∀ m ∈ mx, v ≤ m) ∧
      (age_pass ⟨mn, mx⟩ v = true ↔ mn.getD 0 ≤ v ∧ v ≤ mx.getD 150) ∧
      ∀ m : ℚ, income_pass ⟨mn, some m⟩ m = true ∧
        income_pass ⟨mn, some m⟩ (m + 1) = false := by
  refine ⟨?_, ?_, ?_, ?_⟩
  · cases mx <;> simp [income_pass, gtMaxOpt, not_lt]
  · cases mx <;> simp [land_pass, leMaxOpt]
  · simp [age_pass]
  · intro m
    constructor
    · simp [income_pass, gtMaxOpt]
    · simp [income_pass, gtMaxOpt]

/-- C3 (counterexample): a present criterion referencing an absent profile
field need not fail the call.  The scheme lists allowed employment statuses
and the profile omits `employmentStatus`, yet the evaluation returns an
ordinary empty result list, because the scheme's land criterion already
failed and returned `False` before the employment field was read. -/
theorem absent_field_skipped_after_earlier_failure :
    shortCircuitScheme.eligibilityCriteria.employmentStatus.isSome = true ∧
      employmentValue? noEmpProfile = none ∧
      noEmpProfile.isEmpty = false ∧
      shortCircuitScheme ∈ (⟨[shortCircuitScheme], mkRat 89 100, 5⟩ :
        EligibilityEngine).schemes ∧
      evaluate_eligibility ⟨[shortCircuitScheme], mkRat 89 100, 5⟩
        noEmpProfile 0 = .ok [] := by
  decide

/-- C3 (amended): when the evaluation of some scheme's criteria actually
reaches an absent profile field (rather than returning `False` at an
earlier criterion), the whole evaluate call fails with a
missing-profile-field error naming a field genuinely absent from the
profile — no partial result list is returned. -/
theorem reached_missing_field_fails_call {e : EligibilityEngine}
    {p : Profile} {s : Scheme} {er : EngineError} {t : ℚ}
    (h0 : p.isEmpty = false) (h1 : s ∈ e.schemes)
    (h2 : check_scheme_eligibility p s = .error er) :
    ∃ f, evaluate_eligibility e p t = .error (.missingProfileField f) ∧
      profileFieldMissing p f := by
  obtain ⟨er2, her2⟩ := loop_error_exists h1 h2
  obtain ⟨f, hf, hm⟩ := loop_error_wf her2
  subst hf
  refine ⟨f, ?_, hm⟩
  unfold evaluate_eligibility
  rw [h0]
  simp only [Bool.false_eq_true, if_false, her2]

/-- C3 (witness): a profile without an economic section, evaluated against
the PM-KISAN fixture (whose land criterion reads that section), fails the
whole call with a missing-field error. -/
theorem reached_missing_field_fails_call_witness :
    ∃ f, evaluate_eligibility ⟨[pmKisan], mkRat 89 100, 5⟩ noEconProfile 0 =
        .error (.missingProfileField f) ∧
      profileFieldMissing noEconProfile f :=
  @reached_missing_field_fails_call ⟨[pmKisan], mkRat 89 100, 5⟩ noEconProfile
    pmKisan (.missingProfileField "economic") 0 (by decide) (by decide)
    (by decide)

/-- C4: every returned result's score is the base `0.8` plus one `0.1`
increment per criterion the profile matches exactly and additionally (the
employment-status criterion is the only such criterion in the code),
clamped to `[0, 1]`. -/
theorem score_base_plus_bonus_clamped {e : EligibilityEngine} {p : Profile}
    {t : ℚ} {res : List SchemeResult} {r : SchemeResult}
    (h : evaluate_eligibility e p t = .ok res) (hr : r ∈ res) :
    0 ≤ r.eligibilityScore ∧ r.eligibilityScore ≤ 1 ∧
      ∃ s ∈ e.schemes,
        r.eligibilityScore =
          min ((8 : ℚ)/10 + (exactMatchBonusCount p s : ℚ) * (1/10)) 1 := by
  obtain ⟨-, -, pre, hl, hres⟩ := evaluate_ok_elim h
  have hr' : r ∈ pre := (rankResults_perm pre).mem_iff.mp (hres ▸ hr)
  obtain ⟨s, hs, -, hscore, -, -, -, -⟩ := loop_mem hl r hr'
  rcases score_spec hscore with ⟨hm, hq, -⟩ | ⟨hm, hq, -⟩
  · refine ⟨by rw [hq]; norm_num, by rw [hq]; norm_num, s, hs, ?_⟩
    simp only [exactMatchBonusCount, hm, if_true, Nat.cast_one, one_mul]
    rw [hq, min_eq_left (by norm_num)]
    norm_num
  · refine ⟨by rw [hq]; norm_num, by rw [hq]; norm_num, s, hs, ?_⟩
    simp only [exactMatchBonusCount, hm, Bool.false_eq_true, if_false,
      Nat.cast_zero, zero_mul, add_zero]
    rw [hq, min_eq_left (by norm_num)]
    norm_num

/-- C4 (witness): the PM-KISAN result for the sample profile instantiates
the score formula. -/
theorem score_base_plus_bonus_clamped_witness :
    0 ≤ pmKisanResult.eligibilityScore ∧ pmKisanResult.eligibilityScore ≤ 1 ∧
      ∃ s ∈ (⟨[pmKisan], mkRat 89 100, 5⟩ : EligibilityEngine).schemes,
        pmKisanResult.eligibilityScore =
          min ((8 : ℚ)/10 +
            (exactMatchBonusCount sampleProfile s : ℚ) * (1/10)) 1 :=
  @score_base_plus_bonus_clamped ⟨[pmKisan], mkRat 89 100, 5⟩ sampleProfile 0
    [pmKisanResult] pmKisanResult (by decide) (by decide)

/-- C5: the returned list is sorted by benefit amount descending, and is
stable: for every benefit value, the results carrying it appear in exactly
the order the loop produced them, which is catalog order (the loop's output
ids form a sublist of the catalog's ids). -/
theorem results_ranked_descending_stable {e : EligibilityEngine}
    {p : Profile} {t : ℚ} {res : List SchemeResult}
    (h : evaluate_eligibility e p t = .ok res) :
    res.Pairwise (fun a b => b.benefitAmount ≤ a.benefitAmount) ∧
      ∃ pre, evaluate_schemes_loop p e.schemes = .ok pre ∧
        (∀ q : ℚ, res.filter (fun a => decide (a.benefitAmount = q)) =
          pre.filter (fun a => decide (a.benefitAmount = q))) ∧
        List.Sublist (pre.map SchemeResult.schemeId)
          (e.schemes.map Scheme.schemeId) := by
  obtain ⟨-, -, pre, hl, hres⟩ := evaluate_ok_elim h
  subst hres
  exact ⟨rankResults_sorted pre, pre, hl, fun q => rankResults_filter pre q,
    loop_ids_sublist hl⟩

/-- C5 (witness): the two-scheme fixture catalog instantiates the ranking
property: MGNREGA (benefit 25000) precedes PM-KISAN (benefit 6000). -/
theorem results_ranked_descending_stable_witness :
    ([mgnregaResult, pmKisanResult] : List SchemeResult).Pairwise
        (fun a b => b.benefitAmount ≤ a.benefitAmount) ∧
      ∃ pre, evaluate_schemes_loop sampleProfile [pmKisan, mgnrega] =
          .ok pre ∧
        (∀ q : ℚ,
          ([mgnregaResult, pmKisanResult] : List SchemeResult).filter
              (fun a => decide (a.benefitAmount = q)) =
            pre.filter (fun a => decide (a.benefitAmount = q))) ∧
        List.Sublist (pre.map SchemeResult.schemeId)
          (([pmKisan, mgnrega] : List Scheme).map Scheme.schemeId) :=
  @results_ranked_descending_stable ⟨[pmKisan, mgnrega], mkRat 89 100, 5⟩
    sampleProfile 0 [mgnregaResult, pmKisanResult] (by decide)

/-- C6 (counterexample): a catalog containing the same scheme twice yields
that scheme's id twice in one evaluation's result list, so the no-duplicates
property fails for catalogs with repeated entries. -/
theorem duplicate_catalog_duplicates_ids :
    evaluate_eligibility ⟨[pmKisan, pmKisan], mkRat 89 100, 5⟩ sampleProfile
        0 = .ok [pmKisanResult, pmKisanResult] ∧
      ¬ (List.map SchemeResult.schemeId
          [pmKisanResult, pmKisanResult]).Nodup := by
  decide

/-- C6 (amended): when the catalog's scheme ids are pairwise distinct, the
ids of one evaluation's results are pairwise distinct as well. -/
theorem ids_nodup_of_catalog_nodup {e : EligibilityEngine} {p : Profile}
    {t : ℚ} {res : List SchemeResult}
    (hN : (e.schemes.map Scheme.schemeId).Nodup)
    (h : evaluate_eligibility e p t = .ok res) :
    (res.map SchemeResult.schemeId).Nodup := by
  obtain ⟨-, -, pre, hl, hres⟩ := evaluate_ok_elim h
  subst hres
  have h1 : (pre.map SchemeResult.schemeId).Nodup :=
    List.Nodup.sublist (loop_ids_sublist hl) hN
  exact ((rankResults_perm pre).map SchemeResult.schemeId).nodup_iff.mpr h1

/-- C6 (witness): the two-scheme fixture catalog has distinct ids and so
does its result list. -/
theorem ids_nodup_of_catalog_nodup_witness :
    (([mgnregaResult, pmKisanResult] : List SchemeResult).map
        SchemeResult.schemeId).Nodup :=
  @ids_nodup_of_catalog_nodup ⟨[pmKisan, mgnrega], mkRat 89 100, 5⟩
    sampleProfile 0 [mgnregaResult, pmKisanResult] (by decide) (by decide)

/-- C7: `load_schemes` accepts a list input by replacing the catalog
wholesale (no stale entry survives, and the count afterwards is the new
list's length) and rejects a non-list input with the invalid-catalog error,
leaving the engine unchanged. -/
theorem load_schemes_replace_or_reject (engine : EligibilityEngine)
    (l : List Scheme) :
    load_schemes engine (.list l) = ({ engine with schemes := l }, none) ∧
      get_scheme_count { engine with schemes := l } = l.length ∧
      load_schemes engine .nonList = (engine, some .invalidCatalog) :=
  ⟨rfl, rfl, rfl⟩

/-- C8: for a fixed engine and profile, two successful evaluate calls (at
any two elapsed times) return identical result lists: the output content
depends only on the catalog and the profile. -/
theorem evaluate_deterministic {e : EligibilityEngine} {p : Profile}
    {t₁ t₂ : ℚ} {res₁ res₂ : List SchemeResult}
    (h₁ : evaluate_eligibility e p t₁ = .ok res₁)
    (h₂ : evaluate_eligibility e p t₂ = .ok res₂) : res₁ = res₂ := by
  obtain ⟨-, -, pre₁, hl₁, hr₁⟩ := evaluate_ok_elim h₁
  obtain ⟨-, -, pre₂, hl₂, hr₂⟩ := evaluate_ok_elim h₂
  rw [hl₁] at hl₂
  injection hl₂ with h12
  rw [hr₁, hr₂, h12]

/-- C8 (witness): two calls at elapsed times 0 and 3 return the same
list. -/
theorem evaluate_deterministic_witness :
    ([mgnregaResult, pmKisanResult] : List SchemeResult) =
      [mgnregaResult, pmKisanResult] :=
  @evaluate_deterministic ⟨[pmKisan, mgnrega], mkRat 89 100, 5⟩ sampleProfile
    0 3 [mgnregaResult, pmKisanResult] [mgnregaResult, pmKisanResult]
    (by decide) (by decide)

/-- C9: the time budget is enforced post hoc — when the loop completes, the
call fails with a budget error carrying the actual elapsed time exactly
when it exceeds the engine's maximum, and otherwise returns the fully
computed ranked list; the error decision depends only on the elapsed
time. -/
theorem time_budget_checked_post_hoc {e : EligibilityEngine} {p : Profile}
    {pre : List SchemeResult} (h0 : p.isEmpty = false)
    (h1 : evaluate_schemes_loop p e.schemes = .ok pre) :
    (∀ t, e.max_evaluation_time < t →
        evaluate_eligibility e p t = .error (.timeBudgetExceeded t)) ∧
      ∀ t, ¬ e.max_evaluation_time < t →
        evaluate_eligibility e p t = .ok (rankResults pre) := by
  constructor <;> intro t ht <;> unfold evaluate_eligibility <;> rw [h0] <;>
    simp only [Bool.false_eq_true, if_false, h1]
  · rw [if_pos ht]
  · rw [if_neg ht]

/-- C9 (witness): with the PM-KISAN fixture and the sample profile, elapsed
times above the 5-second maximum fail with the budget error and elapsed
times within it return the ranked list. -/
theorem time_budget_checked_post_hoc_witness :
    (∀ t, (⟨[pmKisan], mkRat 89 100, 5⟩ :
          EligibilityEngine).max_evaluation_time < t →
        evaluate_eligibility ⟨[pmKisan], mkRat 89 100, 5⟩ sampleProfile t =
          .error (.timeBudgetExceeded t)) ∧
      ∀ t, ¬ (⟨[pmKisan], mkRat 89 100, 5⟩ :
          EligibilityEngine).max_evaluation_time < t →
        evaluate_eligibility ⟨[pmKisan], mkRat 89 100, 5⟩ sampleProfile t =
          .ok (rankResults [pmKisanResult]) :=
  @time_budget_checked_post_hoc ⟨[pmKisan], mkRat 89 100, 5⟩ sampleProfile
    [pmKisanResult] (by decide) (by decide)

/-- C10: every returned result scores exactly `0.8` or exactly `0.9` —
`0.9` precisely when the matching scheme's employment-status criterion
lists the profile's status — so the category is always `Likely Eligible`
or `Definitely Eligible`; `Conditional` (like `Not Eligible`) is never
produced. -/
theorem score_and_category_dichotomy {e : EligibilityEngine} {p : Profile}
    {t : ℚ} {res : List SchemeResult} {r : SchemeResult}
    (h : evaluate_eligibility e p t = .ok res) (hr : r ∈ res) :
    (r.category = "Likely Eligible" ∨ r.category = "Definitely Eligible") ∧
      ∃ s ∈ e.schemes,
        ((empExactMatch p s = true ∧ r.eligibilityScore = 9/10 ∧
            r.category = "Definitely Eligible") ∨
          (empExactMatch p s = false ∧ r.eligibilityScore = 4/5 ∧
            r.category = "Likely Eligible")) := by
  obtain ⟨-, -, pre, hl, hres⟩ := evaluate_ok_elim h
  have hr' : r ∈ pre := (rankResults_perm pre).mem_iff.mp (hres ▸ hr)
  obtain ⟨s, hs, -, hscore, hcat, -, -, -⟩ := loop_mem hl r hr'
  rcases score_spec hscore with ⟨hm, hq, hc⟩ | ⟨hm, hq, hc⟩
  · rw [hcat] at hc
    injection hc with hc'
    exact ⟨Or.inr hc', s, hs, Or.inl ⟨hm, hq, hc'⟩⟩
  · rw [hcat] at hc
    injection hc with hc'
    exact ⟨Or.inl hc', s, hs, Or.inr ⟨hm, hq, hc'⟩⟩

/-- C10 (witness): the PM-KISAN result of the sample profile instantiates
the dichotomy on its exact-match side. -/
theorem score_and_category_dichotomy_witness :
    (pmKisanResult.category = "Likely Eligible" ∨
        pmKisanResult.category = "Definitely Eligible") ∧
      ∃ s ∈ (⟨[pmKisan], mkRat 89 100, 5⟩ : EligibilityEngine).schemes,
        ((empExactMatch sampleProfile s = true ∧
            pmKisanResult.eligibilityScore = 9/10 ∧
            pmKisanResult.category = "Definitely Eligible") ∨
          (empExactMatch sampleProfile s = false ∧
            pmKisanResult.eligibilityScore = 4/5 ∧
            pmKisanResult.category = "Likely Eligible")) :=
  @score_and_category_dichotomy ⟨[pmKisan], mkRat 89 100, 5⟩ sampleProfile 0
    [pmKisanResult] pmKisanResult (by decide) (by decide)

end SarvaSahay
